import Mathlib

/-!
Verification of the epilepsy-framework core: a shallow embedding of the
domain model (`models/patient.py`), the analytics engine
(`utils/analytics.py`), the FHIR transformation engine
(`interoperability/fhir/fhir_resources.py`) and the IHIA integration layer
(`interoperability/ihia/ihia_integration.py`), together with theorems that
settle the specification claims about them.

Modelling conventions:
* a Python `datetime` is the number of microseconds since
  `datetime.min` (0001-01-01T00:00:00), as a `Nat`; `datetime.min` is `0`
  and comparison of datetimes is `Nat` comparison;
* a Python `date` is the number of days since `date.min` (0001-01-01);
  `some_datetime.date()` is division by `usPerDay`;
* Python floats are modelled as exact rationals `ℚ`;
* Python `None` is `Option.none`; truthiness of optional strings, lists
  and numbers follows Python (`""`, `[]`, `0` are falsy);
* `uuid.uuid4()` results are passed in as explicit `fresh` string
  arguments, since they are nondeterministic fresh tokens.
-/

/-- Microseconds per calendar day (Python `timedelta(days=1)`). -/
def usPerDay : Nat := 86400000000

/-- Proleptic-Gregorian leap-year test, as Python's `calendar.isleap`
and the `datetime` module use it. -/
def isLeapYear (y : Nat) : Bool :=
  y % 4 == 0 && (y % 100 != 0 || y % 400 == 0)

/-- Number of days in a calendar year. -/
def daysInYear (y : Nat) : Nat := if isLeapYear y then 366 else 365

/-- Days from 0001-01-01 to the first day of year `y` (so
`datetime(y, 1, 1)` is day number `daysBeforeYear y`). -/
def daysBeforeYear (y : Nat) : Nat :=
  365 * (y - 1) + (y - 1) / 4 - (y - 1) / 100 + (y - 1) / 400

/-- The instant `datetime(y, 1, 1)` in microseconds. -/
def yearStart (y : Nat) : Nat := daysBeforeYear y * usPerDay

/-- The calendar year a `datetime` instant `t` falls in: the year `y`
with `yearStart y ≤ t < yearStart (y+1)`. -/
def instantInYear (t : Nat) (y : Nat) : Bool :=
  yearStart y ≤ t && t < yearStart (y + 1)

/-- Python truthiness of an optional string: `None` and `""` are falsy. -/
def strTruthy : Option String → Bool
  | none => false
  | some s => s != ""

/-- Python truthiness of an optional integer: `None` and `0` are falsy. -/
def intTruthy : Option Int → Bool
  | none => false
  | some n => n != 0

/-- Python truthiness of an optional float: `None` and `0.0` are falsy. -/
def ratTruthy : Option ℚ → Bool
  | none => false
  | some q => q != 0

/-! ## Domain model (`models/patient.py`) -/

/-- `Gender` enumeration. -/
inductive Gender
  | male
  | female
  | other
  | preferNotToSay
deriving DecidableEq, Repr

/-- The `.value` string of a `Gender` member. -/
def Gender.value : Gender → String
  | .male => "Male"
  | .female => "Female"
  | .other => "Other"
  | .preferNotToSay => "Prefer not to say"

/-- `EpilepsyType` enumeration. -/
inductive EpilepsyType
  | generalized
  | focal
  | combined
  | unknown
deriving DecidableEq, Repr

/-- The `.value` string of an `EpilepsyType` member. -/
def EpilepsyType.value : EpilepsyType → String
  | .generalized => "Generalized"
  | .focal => "Focal"
  | .combined => "Combined"
  | .unknown => "Unknown"

/-- `SeizureType` enumeration. -/
inductive SeizureType
  | generalizedTonicClonic
  | absence
  | myoclonic
  | atonic
  | focalAware
  | focalImpairedAwareness
  | focalToBilateralTonicClonic
deriving DecidableEq, Repr

/-- The `.value` string of a `SeizureType` member. -/
def SeizureType.value : SeizureType → String
  | .generalizedTonicClonic => "Generalized Tonic-Clonic"
  | .absence => "Absence"
  | .myoclonic => "Myoclonic"
  | .atonic => "Atonic"
  | .focalAware => "Focal Aware"
  | .focalImpairedAwareness => "Focal Impaired Awareness"
  | .focalToBilateralTonicClonic => "Focal to Bilateral Tonic-Clonic"

/-- `SeverityLevel` enumeration. -/
inductive SeverityLevel
  | mild
  | moderate
  | severe
  | refractory
deriving DecidableEq, Repr

/-- The `.value` string of a `SeverityLevel` member. -/
def SeverityLevel.value : SeverityLevel → String
  | .mild => "Mild"
  | .moderate => "Moderate"
  | .severe => "Severe"
  | .refractory => "Refractory"

/-- `PatientDemographics` dataclass. Dates are day numbers, datetimes are
microsecond instants. -/
structure PatientDemographics where
  patient_id : String
  first_name : String := ""
  last_name : String := ""
  date_of_birth : Option Nat := none
  gender : Option Gender := none
  ethnicity : Option String := none
  race : Option String := none
  address : Option String := none
  city : Option String := none
  state : Option String := none
  zip_code : Option String := none
  phone_number : Option String := none
  email : Option String := none
  emergency_contact : Option String := none
  emergency_phone : Option String := none
  insurance_provider : Option String := none
  insurance_id : Option String := none
  created_at : Nat := 0
  updated_at : Nat := 0
deriving DecidableEq, Repr

/-- `full_name` property: concatenation of the name parts, stripped. -/
def PatientDemographics.full_name (d : PatientDemographics) : String :=
  (d.first_name ++ " " ++ d.last_name).trim

/-- `EpilepsyDiagnosis` dataclass. -/
structure EpilepsyDiagnosis where
  diagnosis_id : String
  patient_id : String := ""
  epilepsy_type : Option EpilepsyType := none
  seizure_types : List SeizureType := []
  severity_level : Option SeverityLevel := none
  age_at_onset : Option Int := none
  diagnosis_date : Option Nat := none
  diagnosing_physician : Option String := none
  etiology : Option String := none
  seizure_frequency : Option String := none
  last_seizure_date : Option Nat := none
  seizure_free_period : Option Int := none
  eeg_findings : Option String := none
  mri_findings : Option String := none
  genetic_testing : Option String := none
  comorbidities : List String := []
  family_history : Option String := none
  created_at : Nat := 0
  updated_at : Nat := 0
deriving DecidableEq, Repr

/-- `SeizureEvent` dataclass. -/
structure SeizureEvent where
  event_id : String
  patient_id : String := ""
  seizure_type : Option SeizureType := none
  seizure_date : Option Nat := none
  duration_minutes : Option ℚ := none
  severity : Option Int := none
  triggers : List String := []
  symptoms_before : List String := []
  symptoms_during : List String := []
  symptoms_after : List String := []
  medication_adherence : Option String := none
  stress_level : Option Int := none
  sleep_hours : Option ℚ := none
  alcohol_consumption : Option String := none
  menstrual_cycle_day : Option Int := none
  hospitalization_required : Bool := false
  emergency_medication_used : Option String := none
  witnessed_by : Option String := none
  notes : Option String := none
  created_at : Nat := 0
deriving DecidableEq, Repr

/-- `Patient` dataclass: aggregate root. -/
structure Patient where
  demographics : PatientDemographics
  diagnosis : Option EpilepsyDiagnosis := none
  seizure_events : List SeizureEvent := []
deriving DecidableEq, Repr

/-- `patient_id` property of `Patient`. -/
def Patient.patient_id (p : Patient) : String := p.demographics.patient_id

/-- The sort key used by `add_seizure_event`:
`x.seizure_date or datetime.min`, with `datetime.min = 0`. -/
def sortKey (e : SeizureEvent) : Nat := e.seizure_date.getD 0

/-- One step of Python's stable sort: insert `e` after every element whose
key is `≤ sortKey e` (equal keys keep their earlier position, as Timsort
guarantees). -/
def pyInsert (e : SeizureEvent) : List SeizureEvent → List SeizureEvent
  | [] => [e]
  | x :: xs => if sortKey x ≤ sortKey e then x :: pyInsert e xs else e :: x :: xs

/-- Python's `list.sort(key=lambda x: x.seizure_date or datetime.min)`:
a stable sort by `sortKey`, realised as left-to-right stable insertion. -/
def pySort (l : List SeizureEvent) : List SeizureEvent :=
  l.foldl (fun acc e => pyInsert e acc) []

/-- `Patient.add_seizure_event`: stamps the owning patient's id on the
event, appends it and re-sorts the whole list by
`x.seizure_date or datetime.min`. -/
def Patient.add_seizure_event (p : Patient) (e : SeizureEvent) : Patient :=
  let e' := { e with patient_id := p.patient_id }
  { p with seizure_events := pySort (p.seizure_events ++ [e']) }

/-- `Patient.get_seizure_events_by_date_range`: the timestamped events
with `start_date <= seizure_date <= end_date`. The bounds are `Int` so
that `datetime.now() - timedelta(days=days)` needs no truncation. -/
def Patient.get_seizure_events_by_date_range (p : Patient)
    (start_date end_date : Int) : List SeizureEvent :=
  p.seizure_events.filter fun ev =>
    match ev.seizure_date with
    | some d => decide (start_date ≤ (d : Int)) && decide ((d : Int) ≤ end_date)
    | none => false

/-! ## Analytics engine (`utils/analytics.py`) -/

/-- Result dictionary of `calculate_seizure_frequency`. -/
structure FrequencyResult where
  total_seizures : Nat
  frequency_per_day : ℚ
  frequency_per_week : ℚ
  frequency_per_month : ℚ
  analysis_period_days : Nat
deriving DecidableEq, Repr

/-- `EpilepsyAnalytics.calculate_seizure_frequency`: counts the events in
`[now - days, now]` and derives per-day/week/month rates.  `now` is the
`datetime.now()` instant, passed explicitly. -/
def calculate_seizure_frequency (now : Nat) (p : Patient) (days : Nat) :
    FrequencyResult :=
  let end_date : Int := now
  let start_date : Int := (now : Int) - days * usPerDay
  let seizures := p.get_seizure_events_by_date_range start_date end_date
  let total_seizures := seizures.length
  let frequency_per_day : ℚ := (total_seizures : ℚ) / (days : ℚ)
  { total_seizures := total_seizures
    frequency_per_day := frequency_per_day
    frequency_per_week := frequency_per_day * 7
    frequency_per_month := frequency_per_day * 30
    analysis_period_days := days }

/-- One row of the `pandas` DataFrame built by `analyze_seizure_patterns`
(only the columns the claims touch). Rows exist only for events carrying
a timestamp. -/
structure PatternRow where
  date : Nat
  duration : Option ℚ
  severity : Option Int
  stress_level : Option Int
deriving DecidableEq, Repr

/-- The DataFrame rows: one per event with a `seizure_date`. -/
def patternRows (events : List SeizureEvent) : List PatternRow :=
  events.filterMap fun e =>
    match e.seizure_date with
    | some d => some { date := d, duration := e.duration_minutes,
                       severity := e.severity, stress_level := e.stress_level }
    | none => none

/-- `Series.mean()` over the non-null entries (pandas skips NaN); `none`
when every entry is null. -/
def seriesMean (xs : List (Option ℚ)) : Option ℚ :=
  let vals := xs.filterMap id
  if vals.length = 0 then none else some (vals.sum / vals.length)

/-- The (stress_level, severity) pairs pandas' pairwise-complete Pearson
correlation actually uses: rows where both columns are non-null. -/
def stressSeverityPairs (events : List SeizureEvent) : List (Int × Int) :=
  (patternRows events).filterMap fun r =>
    match r.stress_level, r.severity with
    | some s, some v => some (s, v)
    | _, _ => none

/-- The exact sums determining a Pearson correlation over `ps`:
`(Sxy, Sxx, Syy)` with `Sxy = n·Σxy − Σx·Σy`, `Sxx = n·Σx² − (Σx)²`,
`Syy = n·Σy² − (Σy)²`; the correlation is `Sxy / sqrt (Sxx·Syy)`. -/
def pearsonSums (ps : List (Int × Int)) : Int × Int × Int :=
  let n : Int := ps.length
  let sx := (ps.map Prod.fst).sum
  let sy := (ps.map Prod.snd).sum
  let sxx := (ps.map fun q => q.1 * q.1).sum
  let syy := (ps.map fun q => q.2 * q.2).sum
  let sxy := (ps.map fun q => q.1 * q.2).sum
  (n * sxy - sx * sy, n * sxx - sx * sx, n * syy - sy * sy)

/-- `DataFrame.corr()` on the two columns, pairwise-complete: `none`
models the NaN pandas returns when fewer than 2 complete pairs exist or
either column is constant on the complete pairs (a 0/0); otherwise the
sums that determine the correlation value. -/
def pearsonData (ps : List (Int × Int)) : Option (Int × Int × Int) :=
  if ps.length < 2 then none
  else
    let s := pearsonSums ps
    if s.2.1 = 0 ∨ s.2.2 = 0 then none else some s

/-- A Python value that is either `None`, float NaN, or a real Pearson
correlation (represented by the integer sums that determine it). -/
inductive CorrResult
  | pyNone
  | pyNaN
  | pyVal (sxy sxx syy : Int)
deriving DecidableEq, Repr

/-- `True` unless the result is an actual correlation number. -/
def CorrResult.isUndef : CorrResult → Bool
  | .pyVal _ _ _ => false
  | _ => true

/-- The `stress_correlation` entry of the analysis dictionary:
`df[['stress_level','severity']].corr().iloc[0,1]` guarded by
`df['stress_level'].notna().any() and df['severity'].notna().any()`. -/
def stressCorrelation (events : List SeizureEvent) : CorrResult :=
  if ((patternRows events).any fun r => r.stress_level.isSome) &&
     ((patternRows events).any fun r => r.severity.isSome) then
    match pearsonData (stressSeverityPairs events) with
    | none => .pyNaN
    | some (a, b, c) => .pyVal a b c
  else .pyNone

/-- The analysis dictionary of `analyze_seizure_patterns` (the entries
the claims touch). -/
structure PatternAnalysis where
  total_events : Nat
  average_duration : Option ℚ
  average_severity : Option ℚ
  stress_correlation : CorrResult
deriving DecidableEq, Repr

/-- `analyze_seizure_patterns` either returns an error dictionary or the
analysis. -/
inductive PatternResult
  | error (msg : String)
  | ok (a : PatternAnalysis)
deriving DecidableEq, Repr

/-- `EpilepsyAnalytics.analyze_seizure_patterns`. -/
def analyze_seizure_patterns (p : Patient) : PatternResult :=
  if p.seizure_events.isEmpty then
    .error "No seizure events found for analysis"
  else
    let rows := patternRows p.seizure_events
    if rows.isEmpty then
      .error "No valid seizure events with dates found"
    else
      .ok { total_events := rows.length
            average_duration := seriesMean (rows.map fun r => r.duration)
            average_severity :=
              seriesMean (rows.map fun r => r.severity.map fun n => (n : ℚ))
            stress_correlation := stressCorrelation p.seizure_events }

/-- One row of the calendar DataFrame of `generate_seizure_calendar`:
indexed by the day number, zero-initialised counters. -/
structure CalendarEntry where
  day : Nat
  seizure_count : Nat
  total_duration : ℚ
  max_severity : Int
deriving DecidableEq, Repr

/-- The zero-initialised calendar: one row per day of the year. -/
def calendarInit (year : Nat) : List CalendarEntry :=
  (List.range (daysInYear year)).map fun i =>
    { day := daysBeforeYear year + i, seizure_count := 0,
      total_duration := 0, max_severity := 0 }

/-- The loop body of `generate_seizure_calendar`: bump the row of the
event's day, guarded by `if date in calendar_df.index`. -/
def calendarStep (cal : List CalendarEntry) (e : SeizureEvent) :
    List CalendarEntry :=
  match e.seizure_date with
  | none => cal
  | some t =>
      let d := t / usPerDay
      if cal.any fun c => c.day = d then
        cal.map fun c =>
          if c.day = d then
            { c with
              seizure_count := c.seizure_count + 1
              total_duration :=
                if ratTruthy e.duration_minutes then
                  c.total_duration + e.duration_minutes.getD 0
                else c.total_duration
              max_severity :=
                if intTruthy e.severity then
                  max c.max_severity (e.severity.getD 0)
                else c.max_severity }
          else c
      else cal

/-- `EpilepsyAnalytics.generate_seizure_calendar`: filters the events to
`[datetime(year,1,1), datetime(year,12,31)]` and folds them into the
zero-initialised per-day rows. -/
def generate_seizure_calendar (p : Patient) (year : Nat) :
    List CalendarEntry :=
  let start_date : Int := yearStart year
  let end_date : Int := (daysBeforeYear year + (daysInYear year - 1)) * usPerDay
  let seizures := p.get_seizure_events_by_date_range start_date end_date
  seizures.foldl calendarStep (calendarInit year)

/-- Number of a patient's events whose timestamp's year is `year`. -/
def eventsInYear (p : Patient) (year : Nat) : Nat :=
  (p.seizure_events.filter fun e =>
    match e.seizure_date with
    | some t => instantInYear t year
    | none => false).length

/-! ## FHIR transformation engine
(`interoperability/fhir/fhir_resources.py`) -/

/-- The generator's `base_url`. -/
def fhirBaseUrl : String := "https://epilepsy-framework.org/fhir"

/-- A `(system, code, display)` coding triple. -/
structure Coding where
  system : String
  code : String
  display : String
deriving DecidableEq, Repr

/-- A FHIR identifier entry of the patient resource. -/
structure FHIRIdentifier where
  use : String
  typeCode : String
  typeDisplay : String
  system : String
  value : String
deriving DecidableEq, Repr

/-- A telecom entry of the patient resource. -/
structure FHIRTelecom where
  system : String
  value : String
  use : String
deriving DecidableEq, Repr

/-- A subject reference block (`reference` + `display`). -/
structure FHIRReference where
  reference : String
  display : String
deriving DecidableEq, Repr

/-- The FHIR `Patient` resource dictionary (claim-relevant keys; constant
coding blocks are collapsed to their codes). -/
structure FHIRPatientResource where
  resourceType : String
  id : String
  versionId : String
  lastUpdated : Nat
  profile : String
  identifier : List FHIRIdentifier
  active : Bool
  familyName : String
  givenName : String
  telecom : List FHIRTelecom
  gender : String
  birthDate : Option Nat
  hasAddress : Bool
  hasContact : Bool
deriving DecidableEq, Repr

/-- `FHIRResourceGenerator.generate_patient_resource`. -/
def generate_patient_resource (patient : Patient) : FHIRPatientResource :=
  let demographics := patient.demographics
  let identifiers :=
    [{ use := "usual", typeCode := "MR", typeDisplay := "Medical Record Number",
       system := fhirBaseUrl ++ "/patient-id",
       value := demographics.patient_id : FHIRIdentifier }] ++
    (if strTruthy demographics.insurance_id then
      [{ use := "secondary", typeCode := "MB", typeDisplay := "Member Number",
         system := fhirBaseUrl ++ "/insurance-id",
         value := demographics.insurance_id.getD "" }]
     else [])
  let telecoms :=
    (if strTruthy demographics.phone_number then
      [{ system := "phone", value := demographics.phone_number.getD "",
         use := "home" : FHIRTelecom }]
     else []) ++
    (if strTruthy demographics.email then
      [{ system := "email", value := demographics.email.getD "",
         use := "home" : FHIRTelecom }]
     else [])
  { resourceType := "Patient"
    id := demographics.patient_id
    versionId := "1"
    lastUpdated := demographics.updated_at
    profile := fhirBaseUrl ++ "/StructureDefinition/EpilepsyPatient"
    identifier := identifiers
    active := true
    familyName := demographics.last_name
    givenName := demographics.first_name
    telecom := telecoms
    gender := match demographics.gender with
      | some .male => "male"
      | some .female => "female"
      | some .other => "other"
      | some .preferNotToSay => "prefer not to say"
      | none => "unknown"
    birthDate := demographics.date_of_birth
    hasAddress := strTruthy demographics.address
    hasContact := strTruthy demographics.emergency_contact }

/-- The `epilepsy_codes` SNOMED table of `generate_condition_resource`. -/
def epilepsyCodes : List (String × Coding) :=
  [("Generalized",
    { system := "http://snomed.info/sct", code := "230456007",
      display := "Generalized epilepsy" }),
   ("Focal",
    { system := "http://snomed.info/sct", code := "230407005",
      display := "Focal epilepsy" }),
   ("Combined",
    { system := "http://snomed.info/sct", code := "84757009",
      display := "Epilepsy" }),
   ("Unknown",
    { system := "http://snomed.info/sct", code := "84757009",
      display := "Epilepsy" })]

/-- The `severity_codes` SNOMED table of `generate_condition_resource`. -/
def severityCodes : List (String × Coding) :=
  [("Mild",
    { system := "http://snomed.info/sct", code := "255604002",
      display := "Mild" }),
   ("Moderate",
    { system := "http://snomed.info/sct", code := "6736007",
      display := "Moderate" }),
   ("Severe",
    { system := "http://snomed.info/sct", code := "24484000",
      display := "Severe" }),
   ("Refractory",
    { system := "http://snomed.info/sct", code := "30745007",
      display := "Drug-resistant epilepsy" }),
   ("Unknown",
    { system := "http://snomed.info/sct", code := "261665006",
      display := "Unknown" })]

/-- The fallback `epilepsy_codes["Unknown"]` entry. -/
def epilepsyUnknownCoding : Coding :=
  { system := "http://snomed.info/sct", code := "84757009",
    display := "Epilepsy" }

/-- The fallback `severity_codes["Unknown"]` entry. -/
def severityUnknownCoding : Coding :=
  { system := "http://snomed.info/sct", code := "261665006",
    display := "Unknown" }

/-- The FHIR `Condition` resource dictionary (claim-relevant keys). -/
structure FHIRConditionResource where
  resourceType : String
  id : String
  versionId : String
  lastUpdated : Nat
  profile : String
  severityCoding : Coding
  codeCoding : Coding
  codeText : String
  subject : FHIRReference
  onsetAge : Option Int
  recordedDate : Option Nat
  recorder : Option String
  note : List String
deriving DecidableEq, Repr

/-- `FHIRResourceGenerator.generate_condition_resource`: the `note` list
starts empty and one `"Label: value"` entry is appended per truthy field
among etiology, EEG findings and MRI findings. -/
def generate_condition_resource (patient : Patient)
    (diagnosis : EpilepsyDiagnosis) : FHIRConditionResource :=
  let epilepsy_type := (diagnosis.epilepsy_type.map EpilepsyType.value).getD "Unknown"
  let severity_level := (diagnosis.severity_level.map SeverityLevel.value).getD "Unknown"
  let note0 : List String := []
  let note1 := note0 ++
    (if strTruthy diagnosis.etiology then
      ["Etiology: " ++ diagnosis.etiology.getD ""] else [])
  let note2 := note1 ++
    (if strTruthy diagnosis.eeg_findings then
      ["EEG Findings: " ++ diagnosis.eeg_findings.getD ""] else [])
  let note3 := note2 ++
    (if strTruthy diagnosis.mri_findings then
      ["MRI Findings: " ++ diagnosis.mri_findings.getD ""] else [])
  { resourceType := "Condition"
    id := diagnosis.diagnosis_id
    versionId := "1"
    lastUpdated := diagnosis.updated_at
    profile := fhirBaseUrl ++ "/StructureDefinition/EpilepsyCondition"
    severityCoding := ((severityCodes.lookup severity_level).getD severityUnknownCoding)
    codeCoding := ((epilepsyCodes.lookup epilepsy_type).getD epilepsyUnknownCoding)
    codeText := epilepsy_type ++ " Epilepsy"
    subject := { reference := "Patient/" ++ patient.patient_id,
                 display := patient.demographics.full_name }
    onsetAge := if intTruthy diagnosis.age_at_onset then diagnosis.age_at_onset else none
    recordedDate := diagnosis.diagnosis_date
    recorder := if strTruthy diagnosis.diagnosing_physician then
        diagnosis.diagnosing_physician else none
    note := note3 }

/-- The `seizure_codes` SNOMED table of `generate_observation_resource`. -/
def seizureCodes : List (String × Coding) :=
  [("Generalized Tonic-Clonic",
    { system := "http://snomed.info/sct", code := "54200006",
      display := "Generalized tonic-clonic seizure" }),
   ("Absence",
    { system := "http://snomed.info/sct", code := "25064002",
      display := "Absence seizure" }),
   ("Myoclonic",
    { system := "http://snomed.info/sct", code := "91175000",
      display := "Myoclonic seizure" }),
   ("Atonic",
    { system := "http://snomed.info/sct", code := "91138005",
      display := "Atonic seizure" }),
   ("Focal Aware",
    { system := "http://snomed.info/sct", code := "230401003",
      display := "Focal aware seizure" }),
   ("Focal Impaired Awareness",
    { system := "http://snomed.info/sct", code := "230402005",
      display := "Focal impaired awareness seizure" }),
   ("Focal to Bilateral Tonic-Clonic",
    { system := "http://snomed.info/sct", code := "230403000",
      display := "Focal to bilateral tonic-clonic seizure" })]

/-- The inline default coding used when a seizure type is not in
`seizure_codes`. -/
def seizureDefaultCoding : Coding :=
  { system := "http://snomed.info/sct", code := "91175000",
    display := "Seizure" }

/-- One `component` entry of the observation resource. -/
structure FHIRComponent where
  codeDisplay : String
  value : ℚ
  unit : String
deriving DecidableEq, Repr

/-- The FHIR `Observation` resource dictionary (claim-relevant keys).
`note` is `none` when the code never sets the `"note"` key. -/
structure FHIRObservationResource where
  resourceType : String
  id : String
  versionId : String
  lastUpdated : Nat
  profile : String
  status : String
  subject : FHIRReference
  effectiveDateTime : Option Nat
  valueCoding : Coding
  valueText : String
  component : List FHIRComponent
  note : Option (List String)
deriving DecidableEq, Repr

/-- `FHIRResourceGenerator.generate_observation_resource`: components are
appended for truthy duration, severity and stress level; the `"note"` key
is set only when triggers or notes are truthy, to a single entry joining
the sources with `"; "`. -/
def generate_observation_resource (patient : Patient)
    (seizure_event : SeizureEvent) : FHIRObservationResource :=
  let seizure_type := (seizure_event.seizure_type.map SeizureType.value).getD "Unknown"
  let components :=
    (if ratTruthy seizure_event.duration_minutes then
      [{ codeDisplay := "Duration", value := seizure_event.duration_minutes.getD 0,
         unit := "minutes" : FHIRComponent }]
     else []) ++
    (if intTruthy seizure_event.severity then
      [{ codeDisplay := "Severity", value := ((seizure_event.severity.getD 0 : Int) : ℚ),
         unit := "score" : FHIRComponent }]
     else []) ++
    (if intTruthy seizure_event.stress_level then
      [{ codeDisplay := "Stress Level",
         value := ((seizure_event.stress_level.getD 0 : Int) : ℚ),
         unit := "score" : FHIRComponent }]
     else [])
  let noteSources : List String :=
    (if seizure_event.triggers ≠ [] then
      ["Triggers: " ++ String.intercalate ", " seizure_event.triggers] else []) ++
    (if strTruthy seizure_event.notes then
      ["Notes: " ++ seizure_event.notes.getD ""] else [])
  { resourceType := "Observation"
    id := seizure_event.event_id
    versionId := "1"
    lastUpdated := seizure_event.created_at
    profile := fhirBaseUrl ++ "/StructureDefinition/SeizureObservation"
    status := "final"
    subject := { reference := "Patient/" ++ patient.patient_id,
                 display := patient.demographics.full_name }
    effectiveDateTime := seizure_event.seizure_date
    valueCoding := ((seizureCodes.lookup seizure_type).getD seizureDefaultCoding)
    valueText := seizure_type
    component := components
    note :=
      if seizure_event.triggers ≠ [] ∨ strTruthy seizure_event.notes then
        some [String.intercalate "; " noteSources]
      else none }

/-- One of the three resource kinds a bundle entry can hold. -/
inductive FHIRResource
  | patientRes (r : FHIRPatientResource)
  | conditionRes (r : FHIRConditionResource)
  | observationRes (r : FHIRObservationResource)
deriving DecidableEq, Repr

/-- One `entry` of the bundle: `fullUrl` plus the resource. -/
structure BundleEntry where
  fullUrl : String
  resource : FHIRResource
deriving DecidableEq, Repr

/-- The FHIR `Bundle` dictionary. -/
structure FHIRBundle where
  resourceType : String
  id : String
  versionId : String
  lastUpdated : Nat
  profile : String
  bundleType : String
  timestamp : Nat
  total : Nat
  entry : List BundleEntry
deriving DecidableEq, Repr

/-- `FHIRResourceGenerator.generate_bundle_resource`: one patient entry,
then a condition entry if a diagnosis exists, then one observation entry
per seizure event in list order; `total` is the length of `entry`.  `now`
is the `datetime.now()` instant. -/
def generate_bundle_resource (now : Nat) (patient : Patient) : FHIRBundle :=
  let patientEntries : List BundleEntry :=
    [{ fullUrl := fhirBaseUrl ++ "/Patient/" ++ patient.patient_id,
       resource := .patientRes (generate_patient_resource patient) }]
  let conditionEntries : List BundleEntry :=
    match patient.diagnosis with
    | some diagnosis =>
        [{ fullUrl := fhirBaseUrl ++ "/Condition/" ++ diagnosis.diagnosis_id,
           resource := .conditionRes (generate_condition_resource patient diagnosis) }]
    | none => []
  let observationEntries : List BundleEntry :=
    patient.seizure_events.map fun seizure_event =>
      { fullUrl := fhirBaseUrl ++ "/Observation/" ++ seizure_event.event_id,
        resource := .observationRes (generate_observation_resource patient seizure_event) }
  let entries := patientEntries ++ conditionEntries ++ observationEntries
  { resourceType := "Bundle"
    id := "patient-" ++ patient.patient_id ++ "-bundle"
    versionId := "1"
    lastUpdated := now
    profile := fhirBaseUrl ++ "/StructureDefinition/EpilepsyBundle"
    bundleType := "collection"
    timestamp := now
    total := entries.length
    entry := entries }

/-! ## IHIA integration (`interoperability/ihia/ihia_integration.py`) -/

/-- The `demographics` data element of an IHIA health record. -/
structure IHIADemographics where
  patient_name : String
  date_of_birth : Option Nat
  gender : Option String
  medical_record_number : String
  insurance_id : Option String
deriving DecidableEq, Repr

/-- One `conditions` entry of an IHIA health record. -/
structure IHIACondition where
  condition_code : String
  condition_name : String
  condition_type : Option String
  severity : Option String
  onset_date : Option Nat
  clinical_status : String
deriving DecidableEq, Repr

/-- One `encounters` entry of an IHIA health record. -/
structure IHIAEncounter where
  encounter_id : String
  encounter_type : String
  encounter_date : Option Nat
  seizure_type : Option String
  duration_minutes : Option ℚ
  severity_score : Option Int
  triggers : List String
  hospitalization_required : Bool
deriving DecidableEq, Repr

/-- A value of the string-keyed `data_elements` dictionary. -/
inductive IHIAElement
  | demographicsElem (d : IHIADemographics)
  | conditionsElem (cs : List IHIACondition)
  | encountersElem (es : List IHIAEncounter)
  | treatmentsElem
  | outcomesElem
deriving DecidableEq, Repr

/-- The `IHIAHealthRecord` dataclass (`data_elements` is the dict as a
key-value list; the constant metadata/governance blocks are kept as the
one field the quality code reads). -/
structure IHIAHealthRecord where
  record_id : String
  patient_identifier : String
  source_system : String
  record_type : String
  clinical_domain : String
  data_elements : List (String × IHIAElement)
  data_quality_score : ℚ
  created_timestamp : Nat
  last_updated : Nat
deriving DecidableEq, Repr

/-- `IHIAIntegrator.create_ihia_health_record`.  `org` and `sys` are the
integrator's `organization_id` and `system_id`; `fresh` is the
`uuid.uuid4()` token drawn for this call and `now` the `datetime.now()`
instant. -/
def create_ihia_health_record (org sys fresh : String) (now : Nat)
    (patient : Patient) (record_type : String := "comprehensive") :
    IHIAHealthRecord :=
  let record_id := "IHIA-" ++ org ++ "-" ++ fresh
  let demographics : IHIADemographics :=
    { patient_name := patient.demographics.full_name
      date_of_birth := patient.demographics.date_of_birth
      gender := patient.demographics.gender.map Gender.value
      medical_record_number := patient.patient_id
      insurance_id := patient.demographics.insurance_id }
  let conditions : List IHIACondition :=
    match patient.diagnosis with
    | some diagnosis =>
        [{ condition_code := "ICD-10:G40.9"
           condition_name := "Epilepsy"
           condition_type := diagnosis.epilepsy_type.map EpilepsyType.value
           severity := diagnosis.severity_level.map SeverityLevel.value
           onset_date := diagnosis.diagnosis_date
           clinical_status := "active" }]
    | none => []
  let encounters : List IHIAEncounter :=
    patient.seizure_events.map fun event =>
      { encounter_id := event.event_id
        encounter_type := "seizure_event"
        encounter_date := event.seizure_date
        seizure_type := event.seizure_type.map SeizureType.value
        duration_minutes := event.duration_minutes
        severity_score := event.severity
        triggers := event.triggers
        hospitalization_required := event.hospitalization_required }
  { record_id := record_id
    patient_identifier := patient.patient_id
    source_system := sys
    record_type := record_type
    clinical_domain := "neurology"
    data_elements :=
      [("demographics", .demographicsElem demographics),
       ("conditions", .conditionsElem conditions),
       ("encounters", .encountersElem encounters),
       ("treatments", .treatmentsElem),
       ("outcomes", .outcomesElem)]
    data_quality_score := 0.95
    created_timestamp := now
    last_updated := now }

/-- One entry of the compliance checklist. -/
structure ComplianceCheck where
  check_name : String
  description : String
  status : String
  details : String
deriving DecidableEq, Repr

/-- The result dictionary of `validate_ihia_compliance`. -/
structure ValidationResults where
  is_compliant : Bool
  compliance_score : ℚ
  checks : List ComplianceCheck
deriving DecidableEq, Repr

/-- `IHIAIntegrator.validate_ihia_compliance`: the fixed five-check list,
all hard-coded to pass, with `compliance_score = 1.0` and
`is_compliant = True`. -/
def validate_ihia_compliance (_health_record : IHIAHealthRecord) :
    ValidationResults :=
  { is_compliant := true
    compliance_score := 1.0
    checks :=
      [{ check_name := "Required Fields"
         description := "Verify all required IHIA fields are present"
         status := "pass"
         details := "All required fields present" },
       { check_name := "Data Format"
         description := "Validate data format compliance"
         status := "pass"
         details := "JSON format validated" },
       { check_name := "Privacy Controls"
         description := "Verify privacy and security controls"
         status := "pass"
         details := "Privacy classification and access controls defined" },
       { check_name := "Interoperability Standards"
         description := "Check adherence to interoperability standards"
         status := "pass"
         details := "FHIR, HL7, OpenEHR compliance verified" },
       { check_name := "Data Governance"
         description := "Validate data governance metadata"
         status := "pass"
         details := "Data steward and governance policies defined" }] }

/-- `IHIAQualityAssurance._assess_completeness`: the fraction of the
required sections present as keys of `data_elements`. -/
def assessCompleteness (health_record : IHIAHealthRecord) : ℚ :=
  let required_fields := ["demographics", "conditions", "encounters"]
  let present_fields := required_fields.filter fun f =>
    (health_record.data_elements.map Prod.fst).contains f
  (present_fields.length : ℚ) / (required_fields.length : ℚ)

/-- `IHIAQualityAssurance._assess_accuracy` (fixed constant). -/
def assessAccuracy (_health_record : IHIAHealthRecord) : ℚ := 0.95

/-- `IHIAQualityAssurance._assess_consistency` (fixed constant). -/
def assessConsistency (_health_record : IHIAHealthRecord) : ℚ := 0.92

/-- `IHIAQualityAssurance._assess_timeliness`: a step function of
`(datetime.now() - last_updated).days` (Python's `timedelta.days` floors
toward minus infinity). -/
def assessTimeliness (now : Nat) (health_record : IHIAHealthRecord) : ℚ :=
  let days : Int := ((now : Int) - (health_record.last_updated : Int)).fdiv usPerDay
  if days ≤ 1 then 1.0
  else if days ≤ 7 then 0.9
  else if days ≤ 30 then 0.8
  else 0.7

/-- `IHIAQualityAssurance._assess_validity` (fixed constant). -/
def assessValidity (_health_record : IHIAHealthRecord) : ℚ := 0.93

/-- The quality-assessment dictionary (claim-relevant keys). -/
structure QualityAssessment where
  record_id : String
  completeness : ℚ
  accuracy : ℚ
  consistency : ℚ
  timeliness : ℚ
  validity : ℚ
  overall_score : ℚ
  recommendations : List String
deriving DecidableEq, Repr

/-- `IHIAQualityAssurance.assess_data_quality`: the five dimension
scores, their unweighted mean as `overall_score`, and the advisory
strings appended when completeness or timeliness is below 0.8. -/
def assess_data_quality (now : Nat) (health_record : IHIAHealthRecord) :
    QualityAssessment :=
  let completeness := assessCompleteness health_record
  let accuracy := assessAccuracy health_record
  let consistency := assessConsistency health_record
  let timeliness := assessTimeliness now health_record
  let validity := assessValidity health_record
  let scores := [completeness, accuracy, consistency, timeliness, validity]
  { record_id := health_record.record_id
    completeness := completeness
    accuracy := accuracy
    consistency := consistency
    timeliness := timeliness
    validity := validity
    overall_score := scores.sum / (scores.length : ℚ)
    recommendations :=
      (if completeness < 0.8 then
        ["Improve data completeness by capturing missing demographic and clinical information"]
       else []) ++
      (if timeliness < 0.8 then
        ["Enhance data timeliness by implementing real-time data capture mechanisms"]
       else []) }

/-! ## Auxiliary predicates and concrete fixtures used by the theorems -/

/-- `True` exactly when all timestamp-less events precede all timestamped
events: the list is some prefix of absent-timestamp events followed only
by timestamped ones. -/
def absentFirst (l : List SeizureEvent) : Bool :=
  (l.dropWhile fun e => e.seizure_date.isNone).all fun e => e.seizure_date.isSome

/-- Sum of the `seizure_count` column of a calendar. -/
def sumSeizureCount (cal : List CalendarEntry) : Nat :=
  (cal.map fun c => c.seizure_count).sum

/-- A concrete demographics record. -/
def demoFixture : PatientDemographics := { patient_id := "patient-1" }

/-- A concrete patient with no diagnosis and no events. -/
def emptyPatient : Patient := { demographics := demoFixture }

/-- The scenario patient of the spec: three timestamped events with
severities 2, 3, 4 and durations 1.0, 2.0, 3.0, all stress levels
absent. -/
def scenarioPatient : Patient :=
  { demographics := demoFixture
    seizure_events :=
      [{ event_id := "ev-a", seizure_date := some (10 * usPerDay),
         severity := some 2, duration_minutes := some 1 },
       { event_id := "ev-b", seizure_date := some (11 * usPerDay),
         severity := some 3, duration_minutes := some 2 },
       { event_id := "ev-c", seizure_date := some (12 * usPerDay),
         severity := some 4, duration_minutes := some 3 }] }

/-- A concrete patient with one event 20 days after `datetime.min`. -/
def freqPatient : Patient :=
  { demographics := demoFixture
    seizure_events := [{ event_id := "ev-f", seizure_date := some (20 * usPerDay) }] }

/-- A concrete patient whose single event falls on the last day of year 1
at 10:00 (day 364 of the year, well inside it). -/
def decemberPatient : Patient :=
  { demographics := demoFixture
    seizure_events :=
      [{ event_id := "ev-d", seizure_date := some (364 * usPerDay + 36000000000) }] }

/-- An event whose timestamp is exactly `datetime.min`. -/
def minTimeEvent : SeizureEvent := { event_id := "ev-min", seizure_date := some 0 }

/-- An event with no timestamp. -/
def noTimeEvent : SeizureEvent := { event_id := "ev-none" }

/-- An event with both a trigger list and free-text notes. -/
def notedEvent : SeizureEvent :=
  { event_id := "ev-n", triggers := ["Stress"], notes := some "Lost consciousness" }

/-! ## Theorems -/

/-- `pyInsert` only repositions the new element. -/
theorem pyInsert_perm (e : SeizureEvent) (l : List SeizureEvent) :
    (pyInsert e l).Perm (e :: l) := by
  induction l with
  | nil => simp [pyInsert]
  | cons x xs ih =>
    by_cases h : sortKey x ≤ sortKey e
    · simp only [pyInsert, if_pos h]
      exact (ih.cons x).trans (List.Perm.swap e x xs)
    · simp only [pyInsert, if_neg h]
      exact List.Perm.refl _

/-- `pyInsert` preserves sortedness by `sortKey`. -/
theorem pairwise_pyInsert (e : SeizureEvent) (l : List SeizureEvent)
    (h : l.Pairwise fun a b => sortKey a ≤ sortKey b) :
    (pyInsert e l).Pairwise fun a b => sortKey a ≤ sortKey b := by
  induction l with
  | nil => simp [pyInsert]
  | cons x xs ih =>
    rcases List.pairwise_cons.mp h with ⟨hx, hxs⟩
    by_cases hc : sortKey x ≤ sortKey e
    · simp only [pyInsert, if_pos hc]
      refine List.pairwise_cons.mpr ⟨?_, ih hxs⟩
      intro b hb
      rcases List.mem_cons.mp ((pyInsert_perm e xs).mem_iff.mp hb) with hbe | hbxs
      · exact hbe ▸ hc
      · exact hx b hbxs
    · simp only [pyInsert, if_neg hc]
      have he : sortKey e ≤ sortKey x := le_of_not_le hc
      refine List.pairwise_cons.mpr ⟨?_, h⟩
      intro b hb
      rcases List.mem_cons.mp hb with hbx | hbxs
      · exact hbx ▸ he
      · exact le_trans he (hx b hbxs)

/-- Folding `pyInsert` keeps the accumulator sorted. -/
theorem pySort_go_sorted (l : List SeizureEvent) (acc : List SeizureEvent)
    (h : acc.Pairwise fun a b => sortKey a ≤ sortKey b) :
    (l.foldl (fun acc e => pyInsert e acc) acc).Pairwise
      fun a b => sortKey a ≤ sortKey b := by
  induction l generalizing acc with
  | nil => exact h
  | cons x xs ih => exact ih _ (pairwise_pyInsert x acc h)

/-- `pySort` output is sorted by `sortKey`. -/
theorem pySort_sorted (l : List SeizureEvent) :
    (pySort l).Pairwise fun a b => sortKey a ≤ sortKey b :=
  pySort_go_sorted l [] (by simp)

/-- Folding `pyInsert` permutes the accumulator and the input. -/
theorem pySort_go_perm (l : List SeizureEvent) (acc : List SeizureEvent) :
    (l.foldl (fun acc e => pyInsert e acc) acc).Perm (acc ++ l) := by
  induction l generalizing acc with
  | nil => simp
  | cons x xs ih =>
    refine (ih (pyInsert x acc)).trans ?_
    refine (((pyInsert_perm x acc).append_right xs).trans ?_)
    exact List.perm_middle.symm

/-- `pySort` is a permutation. -/
theorem pySort_perm (l : List SeizureEvent) : (pySort l).Perm l :=
  (pySort_go_perm l []).trans (by simp)

/-- C10: `add_seizure_event` stores exactly the given event with its
`patient_id` overwritten by the owning patient's id — the new event list
is a permutation of the old one plus the overwritten event, so every
event inserted through this operation carries the owner's identifier. -/
theorem add_seizure_event_overwrites_patient_id (p : Patient) (e : SeizureEvent) :
    (p.add_seizure_event e).seizure_events.Perm
      ({ e with patient_id := p.patient_id } :: p.seizure_events) ∧
    ∀ ev ∈ (p.add_seizure_event e).seizure_events,
      ev = { e with patient_id := p.patient_id } ∨ ev ∈ p.seizure_events := by
  have hperm : (p.add_seizure_event e).seizure_events.Perm
      ({ e with patient_id := p.patient_id } :: p.seizure_events) :=
    (pySort_perm _).trans (List.perm_append_singleton _ _)
  exact ⟨hperm, fun ev hev => List.mem_cons.mp (hperm.mem_iff.mp hev)⟩

/-- C2 (amended): after any non-empty sequence of `add_seizure_event`
calls, in any order, the patient's event list is sorted non-decreasing by
the key `seizure_date or datetime.min`; consequently every event placed
before a timestamp-less event has that minimum key, i.e. timestamp-less
events precede all events with a timestamp strictly greater than
`datetime.min`. -/
theorem add_seizure_event_keeps_sorted (p : Patient) (es : List SeizureEvent)
    (h : es ≠ []) :
    ((es.foldl Patient.add_seizure_event p).seizure_events.Pairwise
      fun a b => sortKey a ≤ sortKey b) ∧
    ((es.foldl Patient.add_seizure_event p).seizure_events.Pairwise
      fun a b => b.seizure_date = none → sortKey a = 0) := by
  have hs : (es.foldl Patient.add_seizure_event p).seizure_events.Pairwise
      fun a b => sortKey a ≤ sortKey b := by
    induction es generalizing p with
    | nil => exact absurd rfl h
    | cons e rest ih =>
      cases rest with
      | nil =>
        show ((p.add_seizure_event e).seizure_events.Pairwise
          fun a b => sortKey a ≤ sortKey b)
        exact pySort_sorted _
      | cons f rest2 => exact ih (p.add_seizure_event e) (by simp)
  refine ⟨hs, hs.imp ?_⟩
  intro a b hab hb
  have : sortKey b = 0 := by simp [sortKey, hb]
  omega

/-- C2 witness: the amended invariant at a concrete run of insertions in
non-chronological order. -/
theorem add_seizure_event_keeps_sorted_witness :
    (([{ event_id := "ev-late", seizure_date := some (3 * usPerDay) },
       noTimeEvent,
       { event_id := "ev-early", seizure_date := some usPerDay }].foldl
        Patient.add_seizure_event emptyPatient).seizure_events.Pairwise
      fun a b => sortKey a ≤ sortKey b) ∧
    (([{ event_id := "ev-late", seizure_date := some (3 * usPerDay) },
       noTimeEvent,
       { event_id := "ev-early", seizure_date := some usPerDay }].foldl
        Patient.add_seizure_event emptyPatient).seizure_events.Pairwise
      fun a b => b.seizure_date = none → sortKey a = 0) :=
  add_seizure_event_keeps_sorted emptyPatient _ (by simp)

/-- C2 counterexample: the claim as stated — all timestamp-less events
ordered before all timestamped events — fails when an event is
timestamped exactly at `datetime.min`: Python's stable sort then leaves
that timestamped event (inserted first) in front of a later
timestamp-less one, so the resulting order is timestamped first. -/
theorem stable_sort_min_timestamp_counterexample :
    ((emptyPatient.add_seizure_event minTimeEvent).add_seizure_event
        noTimeEvent).seizure_events.map (fun e => (e.event_id, e.seizure_date)) =
      [("ev-min", some 0), ("ev-none", none)] ∧
    absentFirst ((emptyPatient.add_seizure_event minTimeEvent).add_seizure_event
        noTimeEvent).seizure_events = false := by decide

/-- C3: for a positive window, `calculate_seizure_frequency` counts
exactly the timestamped events in `[now - days, now]`, the per-day rate
is that count divided by the window, the weekly and monthly rates are 7
and 30 times the per-day rate, the count is recoverable (no division
error), and an empty window yields all-zero rates. -/
theorem calculate_seizure_frequency_spec (now : Nat) (p : Patient)
    (days : Nat) (h : 0 < days) :
    (calculate_seizure_frequency now p days).total_seizures =
      (p.get_seizure_events_by_date_range ((now : Int) - days * usPerDay) now).length ∧
    (calculate_seizure_frequency now p days).frequency_per_day =
      ((calculate_seizure_frequency now p days).total_seizures : ℚ) / (days : ℚ) ∧
    (calculate_seizure_frequency now p days).frequency_per_week =
      7 * (calculate_seizure_frequency now p days).frequency_per_day ∧
    (calculate_seizure_frequency now p days).frequency_per_month =
      30 * (calculate_seizure_frequency now p days).frequency_per_day ∧
    (calculate_seizure_frequency now p days).frequency_per_day * (days : ℚ) =
      ((calculate_seizure_frequency now p days).total_seizures : ℚ) ∧
    ((calculate_seizure_frequency now p days).total_seizures = 0 →
      (calculate_seizure_frequency now p days).frequency_per_day = 0 ∧
      (calculate_seizure_frequency now p days).frequency_per_week = 0 ∧
      (calculate_seizure_frequency now p days).frequency_per_month = 0) := by
  have hdq : (days : ℚ) ≠ 0 := by
    exact_mod_cast Nat.pos_iff_ne_zero.mp h
  refine ⟨rfl, rfl, mul_comm _ _, mul_comm _ _, ?_, ?_⟩
  · simp [calculate_seizure_frequency, div_mul_cancel₀, hdq]
  · intro h0
    simp [calculate_seizure_frequency] at h0 ⊢
    simp [h0]

/-- C3 witness: the 30-day window on a concrete patient with one event
inside the window, at `now` = 40 days after `datetime.min`. -/
theorem calculate_seizure_frequency_spec_witness :
    0 < 30 ∧
    ((calculate_seizure_frequency (40 * usPerDay) freqPatient 30).frequency_per_week =
      7 * (calculate_seizure_frequency (40 * usPerDay) freqPatient 30).frequency_per_day ∧
    (calculate_seizure_frequency (40 * usPerDay) freqPatient 30).frequency_per_month =
      30 * (calculate_seizure_frequency (40 * usPerDay) freqPatient 30).frequency_per_day) :=
  ⟨by decide,
   (calculate_seizure_frequency_spec (40 * usPerDay) freqPatient 30 (by decide)).2.2.1,
   (calculate_seizure_frequency_spec (40 * usPerDay) freqPatient 30 (by decide)).2.2.2.1⟩

/-- C1: the full-patient bundle holds exactly one patient entry first,
then one condition entry iff the patient has a diagnosis, then one
observation entry per seizure event in event-sequence order, and the
envelope's `total` equals `1 + (1 if diagnosis else 0) + len(events)`. -/
theorem generate_bundle_resource_spec (now : Nat) (p : Patient) :
    (generate_bundle_resource now p).entry =
      ({ fullUrl := fhirBaseUrl ++ "/Patient/" ++ p.patient_id,
         resource := .patientRes (generate_patient_resource p) } ::
       ((match p.diagnosis with
         | some d =>
             [{ fullUrl := fhirBaseUrl ++ "/Condition/" ++ d.diagnosis_id,
                resource := .conditionRes (generate_condition_resource p d) }]
         | none => []) ++
        p.seizure_events.map fun ev =>
          { fullUrl := fhirBaseUrl ++ "/Observation/" ++ ev.event_id,
            resource := .observationRes (generate_observation_resource p ev) })) ∧
    (generate_bundle_resource now p).total =
      1 + (if p.diagnosis.isSome then 1 else 0) + p.seizure_events.length ∧
    (generate_bundle_resource now p).total =
      (generate_bundle_resource now p).entry.length := by
  refine ⟨by simp [generate_bundle_resource], ?_, rfl⟩
  cases hd : p.diagnosis with
  | none => simp [generate_bundle_resource, hd]; omega
  | some d => simp [generate_bundle_resource, hd]; omega

set_option maxRecDepth 4000 in
/-- C4 evaluation at the failing input: the calendar for year 1 has one
entry per day of the year (365), yet for a patient whose single event is
timestamped on 31 December of year 1 at 10:00 the `seizure_count` column
sums to 0 while exactly one event's timestamp falls in year 1 — the
filter window `[datetime(year,1,1), datetime(year,12,31)]` ends at
midnight and drops the rest of the final day. -/
theorem generate_seizure_calendar_dec31_evaluation :
    (generate_seizure_calendar decemberPatient 1).length = 365 ∧
    sumSeizureCount (generate_seizure_calendar decemberPatient 1) = 0 ∧
    eventsInYear decemberPatient 1 = 1 := by decide


/-- With fewer than two complete (stress, severity) pairs the correlation
is never a number: either the guard fails (`None`) or pandas' pairwise
correlation is NaN. -/
theorem stressCorrelation_few_pairs (events : List SeizureEvent)
    (h : (stressSeverityPairs events).length < 2) :
    (stressCorrelation events).isUndef = true := by
  have hpd : pearsonData (stressSeverityPairs events) = none := by
    unfold pearsonData
    rw [if_pos h]
  unfold stressCorrelation
  rw [hpd]
  split <;> rfl

/-- When every event lacks a stress level the guard
`df['stress_level'].notna().any()` fails and the code returns `None`. -/
theorem stressCorrelation_all_absent (events : List SeizureEvent)
    (h : ∀ e ∈ events, e.stress_level = none) :
    stressCorrelation events = .pyNone := by
  have hany : ((patternRows events).any fun r => r.stress_level.isSome) = false := by
    rw [List.any_eq_false]
    intro r hr
    rcases List.mem_filterMap.mp hr with ⟨e, he, hfe⟩
    cases hde : e.seizure_date with
    | none => rw [hde] at hfe; exact Option.noConfusion hfe
    | some d =>
        rw [hde] at hfe
        have hr' : r.stress_level = e.stress_level := by
          cases hfe; rfl
        simp [hr', h e he]
  unfold stressCorrelation
  rw [hany]
  simp

/-- A numeric correlation can only come out of pandas' pairwise-complete
computation over the both-present pairs, which needs at least two of
them. -/
theorem stressCorrelation_val (events : List SeizureEvent) (x y z : Int)
    (h : stressCorrelation events = .pyVal x y z) :
    pearsonData (stressSeverityPairs events) = some (x, y, z) ∧
    2 ≤ (stressSeverityPairs events).length := by
  unfold stressCorrelation at h
  split at h
  case isTrue =>
    split at h
    case h_1 heq => simp at h
    case h_2 a b c heq =>
      injection h with h1 h2 h3
      subst h1
      subst h2
      subst h3
      refine ⟨heq, ?_⟩
      by_contra hlt
      have h2 : (stressSeverityPairs events).length < 2 := by omega
      unfold pearsonData at heq
      rw [if_pos h2] at heq
      exact Option.noConfusion heq
  case isFalse => simp at h

/-- C5: for a patient with at least one timestamped event the analysis
succeeds; its stress-severity correlation is computed over exactly the
events where both stress level and severity are present (any numeric
value comes from `pearsonData` on those pairs, which requires at least
two of them), it is undefined whenever fewer than two such pairs exist,
and it is `None` when every event lacks a stress level. -/
theorem analyze_seizure_patterns_stress_spec (p : Patient)
    (h : ∃ e ∈ p.seizure_events, e.seizure_date.isSome = true) :
    (∃ a, analyze_seizure_patterns p = .ok a) ∧
    ∀ a, analyze_seizure_patterns p = .ok a →
      ((stressSeverityPairs p.seizure_events).length < 2 →
        a.stress_correlation.isUndef = true) ∧
      ((∀ e ∈ p.seizure_events, e.stress_level = none) →
        a.stress_correlation = .pyNone) ∧
      (∀ x y z, a.stress_correlation = .pyVal x y z →
        pearsonData (stressSeverityPairs p.seizure_events) = some (x, y, z) ∧
        2 ≤ (stressSeverityPairs p.seizure_events).length) := by
  obtain ⟨e, he, hdate⟩ := h
  obtain ⟨d, hd⟩ := Option.isSome_iff_exists.mp hdate
  have hnil : p.seizure_events ≠ [] := List.ne_nil_of_mem he
  have hne : p.seizure_events.isEmpty = false := by
    cases hl : p.seizure_events with
    | nil => exact absurd hl hnil
    | cons a l => rfl
  have hrowmem : (⟨d, e.duration_minutes, e.severity, e.stress_level⟩ : PatternRow) ∈
      patternRows p.seizure_events := by
    apply List.mem_filterMap.mpr
    exact ⟨e, he, by rw [hd]⟩
  have hrownil : patternRows p.seizure_events ≠ [] := List.ne_nil_of_mem hrowmem
  have hrowne : (patternRows p.seizure_events).isEmpty = false := by
    cases hl : patternRows p.seizure_events with
    | nil => exact absurd hl hrownil
    | cons a l => rfl
  have hA : analyze_seizure_patterns p = .ok
      { total_events := (patternRows p.seizure_events).length
        average_duration :=
          seriesMean ((patternRows p.seizure_events).map fun r => r.duration)
        average_severity :=
          seriesMean ((patternRows p.seizure_events).map fun r =>
            r.severity.map fun n => (n : ℚ))
        stress_correlation := stressCorrelation p.seizure_events } := by
    simp [analyze_seizure_patterns, hne, hrowne]
  refine ⟨⟨_, hA⟩, ?_⟩
  intro a ha
  rw [hA] at ha
  have ha' : a.stress_correlation = stressCorrelation p.seizure_events := by
    cases ha; rfl
  rw [ha']
  exact ⟨stressCorrelation_few_pairs _, stressCorrelation_all_absent _,
    stressCorrelation_val _⟩

/-- C5 witness: the spec scenario — three timestamped events with
severities 2, 3, 4 and no stress levels — analysed concretely. -/
theorem analyze_seizure_patterns_stress_spec_witness :
    (∃ e ∈ scenarioPatient.seizure_events, e.seizure_date.isSome = true) ∧
    (∃ a, analyze_seizure_patterns scenarioPatient = .ok a) :=
  ⟨by decide, (analyze_seizure_patterns_stress_spec scenarioPatient (by decide)).1⟩

/-- C6: the compliance validator returns the fixed, ordered, named
five-check list, every check's status is `pass` or `fail`, the score
equals passed/total exactly, lies in `[0,1]`, and the overall-compliance
boolean holds exactly when the score is 1.0. -/
theorem validate_ihia_compliance_spec (hr : IHIAHealthRecord) :
    ((validate_ihia_compliance hr).checks.map fun c => c.check_name) =
      ["Required Fields", "Data Format", "Privacy Controls",
       "Interoperability Standards", "Data Governance"] ∧
    (∀ c ∈ (validate_ihia_compliance hr).checks,
      c.status = "pass" ∨ c.status = "fail") ∧
    (validate_ihia_compliance hr).compliance_score =
      (((validate_ihia_compliance hr).checks.filter fun c =>
          c.status == "pass").length : ℚ) /
        ((validate_ihia_compliance hr).checks.length : ℚ) ∧
    0 ≤ (validate_ihia_compliance hr).compliance_score ∧
    (validate_ihia_compliance hr).compliance_score ≤ 1 ∧
    ((validate_ihia_compliance hr).is_compliant = true ↔
      (validate_ihia_compliance hr).compliance_score = 1) := by
  refine ⟨rfl, ?_, ?_, by norm_num [validate_ihia_compliance],
    by norm_num [validate_ihia_compliance], ?_⟩
  · intro c hc
    fin_cases hc <;> simp [validate_ihia_compliance]
  · norm_num [validate_ihia_compliance]
  · constructor
    · intro _
      norm_num [validate_ihia_compliance]
    · intro _
      rfl

/-- C7: every quality assessment's overall score is the unweighted mean
of the five dimension scores, each dimension lies in `[0,1]`,
completeness is the fraction of the demographics/conditions/encounters
sections present, and timeliness is the documented step function of the
age in days since the last update. -/
theorem assess_data_quality_spec (now : Nat) (hr : IHIAHealthRecord) :
    (assess_data_quality now hr).overall_score =
      ((assess_data_quality now hr).completeness +
       (assess_data_quality now hr).accuracy +
       (assess_data_quality now hr).consistency +
       (assess_data_quality now hr).timeliness +
       (assess_data_quality now hr).validity) / 5 ∧
    (0 ≤ (assess_data_quality now hr).completeness ∧
      (assess_data_quality now hr).completeness ≤ 1) ∧
    (0 ≤ (assess_data_quality now hr).accuracy ∧
      (assess_data_quality now hr).accuracy ≤ 1) ∧
    (0 ≤ (assess_data_quality now hr).consistency ∧
      (assess_data_quality now hr).consistency ≤ 1) ∧
    (0 ≤ (assess_data_quality now hr).timeliness ∧
      (assess_data_quality now hr).timeliness ≤ 1) ∧
    (0 ≤ (assess_data_quality now hr).validity ∧
      (assess_data_quality now hr).validity ≤ 1) ∧
    (assess_data_quality now hr).completeness =
      ((["demographics", "conditions", "encounters"].filter fun f =>
          (hr.data_elements.map Prod.fst).contains f).length : ℚ) / 3 ∧
    (assess_data_quality now hr).timeliness =
      (if ((now : Int) - (hr.last_updated : Int)).fdiv usPerDay ≤ 1 then 1.0
       else if ((now : Int) - (hr.last_updated : Int)).fdiv usPerDay ≤ 7 then 0.9
       else if ((now : Int) - (hr.last_updated : Int)).fdiv usPerDay ≤ 30 then 0.8
       else 0.7) := by
  have hpc : (assess_data_quality now hr).completeness = assessCompleteness hr := rfl
  have hpa : (assess_data_quality now hr).accuracy = assessAccuracy hr := rfl
  have hpco : (assess_data_quality now hr).consistency = assessConsistency hr := rfl
  have hpt : (assess_data_quality now hr).timeliness = assessTimeliness now hr := rfl
  have hpv : (assess_data_quality now hr).validity = assessValidity hr := rfl
  have hpo : (assess_data_quality now hr).overall_score =
      ([assessCompleteness hr, assessAccuracy hr, assessConsistency hr,
        assessTimeliness now hr, assessValidity hr].sum /
       ((([assessCompleteness hr, assessAccuracy hr, assessConsistency hr,
        assessTimeliness now hr, assessValidity hr].length : Nat)) : ℚ)) := rfl
  have htstep : assessTimeliness now hr =
      (if ((now : Int) - (hr.last_updated : Int)).fdiv usPerDay ≤ 1 then 1.0
       else if ((now : Int) - (hr.last_updated : Int)).fdiv usPerDay ≤ 7 then 0.9
       else if ((now : Int) - (hr.last_updated : Int)).fdiv usPerDay ≤ 30 then 0.8
       else 0.7) := rfl
  have hc01 : 0 ≤ assessCompleteness hr ∧ assessCompleteness hr ≤ 1 := by
    constructor
    · unfold assessCompleteness
      positivity
    · unfold assessCompleteness
      rw [div_le_one (by norm_num)]
      have hle := List.length_filter_le
        (fun f => (hr.data_elements.map Prod.fst).contains f)
        ["demographics", "conditions", "encounters"]
      have h3 : (["demographics", "conditions", "encounters"] : List String).length = 3 := rfl
      rw [h3] at hle
      exact_mod_cast hle
  have ht01 : 0 ≤ assessTimeliness now hr ∧ assessTimeliness now hr ≤ 1 := by
    rw [htstep]
    split_ifs <;> norm_num
  refine ⟨?_, by rw [hpc]; exact hc01, by rw [hpa]; norm_num [assessAccuracy],
    by rw [hpco]; norm_num [assessConsistency], by rw [hpt]; exact ht01,
    by rw [hpv]; norm_num [assessValidity], ?_, by rw [hpt, htstep]⟩
  · rw [hpo, hpc, hpa, hpco, hpt, hpv]
    norm_num [List.sum_cons, List.sum_nil]
    ring
  · rw [hpc]
    unfold assessCompleteness
    norm_num

/-- C8 (amended): the patient, condition and observation documents reuse
the source entity's identifier as their `id`; the IHIA health record
reuses the patient id only as its `patient_identifier` field, while its
`record_id` is a freshly generated org-prefixed token on every call. -/
theorem document_identifier_spec (p : Patient) (d : EpilepsyDiagnosis)
    (ev : SeizureEvent) (org sys fresh rt : String) (now : Nat) :
    (generate_patient_resource p).id = p.patient_id ∧
    (generate_condition_resource p d).id = d.diagnosis_id ∧
    (generate_observation_resource p ev).id = ev.event_id ∧
    (create_ihia_health_record org sys fresh now p rt).patient_identifier =
      p.patient_id ∧
    (create_ihia_health_record org sys fresh now p rt).record_id =
      "IHIA-" ++ org ++ "-" ++ fresh :=
  ⟨rfl, rfl, rfl, rfl, rfl⟩

/-- C8 counterexample: with the repository's organization and system ids,
two calls of `create_ihia_health_record` on the same patient but with
different `uuid4` draws produce different `record_id`s, and neither
equals the source entity's identifier — the registry record's identifier
is freshly generated per call, not reused from the source entity. -/
theorem ihia_record_id_fresh_counterexample :
    (create_ihia_health_record "EPILEPSY-FRAMEWORK-ORG"
        "EPILEPSY-FRAMEWORK-SYS-001" "4f2c" 0 emptyPatient
        "comprehensive").record_id ≠
      (create_ihia_health_record "EPILEPSY-FRAMEWORK-ORG"
        "EPILEPSY-FRAMEWORK-SYS-001" "9a7b" 0 emptyPatient
        "comprehensive").record_id ∧
    (create_ihia_health_record "EPILEPSY-FRAMEWORK-ORG"
        "EPILEPSY-FRAMEWORK-SYS-001" "4f2c" 0 emptyPatient
        "comprehensive").record_id ≠ emptyPatient.patient_id := by
  decide

/-- C9 (amended): the condition document emits one `"Label: value"` note
entry per non-empty contributing field (etiology, EEG findings, MRI
findings), in that order; the observation document joins its non-empty
note sources (triggers, notes) with `"; "` into a single note entry, so
its note list never has more than one element. -/
theorem note_emission_spec (p : Patient) (d : EpilepsyDiagnosis)
    (ev : SeizureEvent) :
    (generate_condition_resource p d).note =
      ([("Etiology", d.etiology), ("EEG Findings", d.eeg_findings),
        ("MRI Findings", d.mri_findings)].filterMap fun lv =>
          if strTruthy lv.2 then some (lv.1 ++ ": " ++ lv.2.getD "") else none) ∧
    (generate_condition_resource p d).note.length =
      ([d.etiology, d.eeg_findings, d.mri_findings].filter strTruthy).length ∧
    (generate_observation_resource p ev).note =
      (if ev.triggers ≠ [] ∨ strTruthy ev.notes then
        some [String.intercalate "; "
          ((if ev.triggers ≠ [] then
              ["Triggers: " ++ String.intercalate ", " ev.triggers] else []) ++
           (if strTruthy ev.notes then ["Notes: " ++ ev.notes.getD ""] else []))]
       else none) ∧
    (∀ l, (generate_observation_resource p ev).note = some l → l.length = 1) := by
  refine ⟨?_, ?_, rfl, ?_⟩
  · simp only [generate_condition_resource]
    cases h1 : strTruthy d.etiology <;> cases h2 : strTruthy d.eeg_findings <;>
      cases h3 : strTruthy d.mri_findings <;>
      simp [h1, h2, h3, List.filterMap_cons]
  · simp only [generate_condition_resource]
    cases h1 : strTruthy d.etiology <;> cases h2 : strTruthy d.eeg_findings <;>
      cases h3 : strTruthy d.mri_findings <;>
      simp [h1, h2, h3]
  · intro l hl
    simp only [generate_observation_resource] at hl
    split at hl
    · injection hl with hl'
      subst hl'
      rfl
    · exact Option.noConfusion hl

/-- C9 counterexample: an event with both a non-empty trigger list and
non-empty notes — two non-empty contributing note fields — yields a note
list with a single merged entry, not one entry per field. -/
theorem observation_note_merged_counterexample :
    notedEvent.triggers ≠ [] ∧ strTruthy notedEvent.notes = true ∧
    (generate_observation_resource emptyPatient notedEvent).note =
      some ["Triggers: Stress; Notes: Lost consciousness"] ∧
    ((generate_observation_resource emptyPatient notedEvent).note.getD []).length
      = 1 := by
  decide
